import Mathlib

/-!
Verification of the request-construction and response-normalization pipeline
of the grok-ask CLI (src/cli/src/main.rs), as a shallow embedding in Lean.
Pure data structures mirror the Rust structs; serde serialization is modelled
by an explicit JSON value type together with serialization functions that
follow the derive attributes (field order, skip attributes) of the source.
-/

namespace Grok

/-- JSON values, modelling the serde_json data model as used by the program
(no floats occur in any serialized type of the source; numbers are u32). -/
inductive Json where
  | null : Json
  | bool (b : Bool) : Json
  | num (n : Nat) : Json
  | str (s : String) : Json
  | arr (elems : List Json) : Json
  | obj (fields : List (String × Json)) : Json

/-- Concatenation of a list of strings, used to state bodies built by
repeated push_str. -/
def concatStrings : List String → String
  | [] => ""
  | s :: rest => s ++ concatStrings rest

/-- Lower-case hexadecimal digit, as emitted by serde_json control escapes. -/
def hexDigitChar (n : Nat) : Char :=
  if n < 10 then Char.ofNat (48 + n) else Char.ofNat (87 + n)

/-- serde_json string escaping: quote, backslash and the control characters
get short escapes, remaining control characters get a lower-case u-escape,
everything else is emitted verbatim. -/
def escapeChar (c : Char) : String :=
  if c = '"' then "\\\""
  else if c = '\\' then "\\\\"
  else if c = '\x08' then "\\b"
  else if c = '\x0c' then "\\f"
  else if c = '\n' then "\\n"
  else if c = '\r' then "\\r"
  else if c = '\t' then "\\t"
  else if c.toNat < 32 then
    "\\u00" ++ String.singleton (hexDigitChar (c.toNat / 16)) ++
      String.singleton (hexDigitChar (c.toNat % 16))
  else String.singleton c

def escapeString (s : String) : String :=
  concatStrings (s.data.map escapeChar)

def indentStr (n : Nat) : String :=
  String.mk (List.replicate n ' ')

mutual

/-- serde_json to_string_pretty: two-space indentation, a colon-space
separator, empty arrays and objects rendered inline. -/
def ppJson (indent : Nat) : Json → String
  | Json.null => "null"
  | Json.bool b => if b then "true" else "false"
  | Json.num n => toString n
  | Json.str s => "\"" ++ escapeString s ++ "\""
  | Json.arr [] => "[]"
  | Json.arr (x :: xs) =>
      "[\n" ++ ppElems (indent + 2) (x :: xs) ++ "\n" ++ indentStr indent ++ "]"
  | Json.obj [] => "\x7b\x7d"
  | Json.obj (f :: fs) =>
      "\x7b\n" ++ ppFields (indent + 2) (f :: fs) ++ "\n" ++ indentStr indent ++ "\x7d"

def ppElems (indent : Nat) : List Json → String
  | [] => ""
  | [x] => indentStr indent ++ ppJson indent x
  | x :: y :: xs =>
      indentStr indent ++ ppJson indent x ++ ",\n" ++ ppElems indent (y :: xs)

def ppFields (indent : Nat) : List (String × Json) → String
  | [] => ""
  | [(k, v)] =>
      indentStr indent ++ "\"" ++ escapeString k ++ "\": " ++ ppJson indent v
  | (k, v) :: g :: fs =>
      indentStr indent ++ "\"" ++ escapeString k ++ "\": " ++ ppJson indent v ++
        ",\n" ++ ppFields indent (g :: fs)

end

/-- Whether a serialized object carries the given key. -/
def jsonHasKey (j : Json) (k : String) : Bool :=
  match j with
  | Json.obj fields => fields.any (fun p => p.1 == k)
  | _ => false

/-- The value stored under a key of a serialized object, if any. -/
def jsonLookup (j : Json) (k : String) : Option Json :=
  match j with
  | Json.obj fields => (fields.find? (fun p => p.1 == k)).map Prod.snd
  | _ => none

/-- Default model identifier (const MODEL in the source). -/
def MODEL : String := "grok-4-1-fast-non-reasoning"

/-- Reasoning-capable model identifier (const REASONING_MODEL). -/
def REASONING_MODEL : String := "grok-4-1-fast"

/-- Rust struct Message. -/
structure Message where
  role : String
  content : String

/-- Rust struct WebSearchTool. -/
structure WebSearchTool where
  type : String
  enable_image_understanding : Option Bool

/-- Rust struct XSearchTool. -/
structure XSearchTool where
  type : String
  allowed_x_handles : Option (List String)
  excluded_x_handles : Option (List String)
  from_date : Option String
  to_date : Option String
  enable_image_understanding : Option Bool
  enable_video_understanding : Option Bool

/-- Rust enum Tool (serde untagged). -/
inductive Tool where
  | WebSearch (t : WebSearchTool) : Tool
  | XSearch (t : XSearchTool) : Tool

/-- Rust struct GrokRequest. -/
structure GrokRequest where
  model : String
  input : List Message
  store : Bool
  max_output_tokens : Option Nat
  previous_response_id : Option String
  tools : List Tool

/-- Rust struct Annotation. -/
structure Annotation where
  url : Option String
  title : Option String

/-- Rust struct WebSearchResult (also used for X results in the source). -/
structure WebSearchResult where
  url : Option String
  title : Option String

/-- Rust struct Content. -/
structure Content where
  type : String
  text : Option String
  annotations : Option (List Annotation )

/-- Rust struct Output. -/
structure Output where
  type : String
  content : Option (List Content)
  results : Option (List WebSearchResult)

/-- Rust struct Usage. -/
structure Usage where
  input_tokens : Option Nat
  output_tokens : Option Nat

/-- Rust struct ApiError. -/
structure ApiError where
  message : Option String
  code : Option String

/-- Rust struct GrokResponse. -/
structure GrokResponse where
  id : Option String
  status : Option String
  output : Option (List Output)
  usage : Option Usage
  error : Option ApiError

/-- Rust enum OutputFormat. -/
inductive OutputFormat where
  | Text : OutputFormat
  | Json : OutputFormat

/-- Rust struct XSearchConfig. -/
structure XSearchConfig where
  allowed_handles : Option (List String)
  excluded_handles : Option (List String)
  from_date : Option String
  to_date : Option String
  enable_images : Bool
  enable_video : Bool

/-- XSearchConfig::default() (all fields unset). -/
def defaultXSearchConfig : XSearchConfig :=
  { allowed_handles := none, excluded_handles := none, from_date := none,
    to_date := none, enable_images := false, enable_video := false }

/- Serialization of the request types, following the serde derive attributes:
fields in declaration order, skip_serializing_if omits the key entirely. -/

def optStr : Option String → Json
  | some s => Json.str s
  | none => Json.null

def optNum : Option Nat → Json
  | some n => Json.num n
  | none => Json.null

def messageToJson (m : Message) : Json :=
  Json.obj [("role", Json.str m.role), ("content", Json.str m.content)]

def webSearchToolToJson (t : WebSearchTool) : Json :=
  Json.obj ([("type", Json.str t.type)] ++
    (match t.enable_image_understanding with
     | some b => [("enable_image_understanding", Json.bool b)]
     | none => []))

def xsearchToolToJson (t : XSearchTool) : Json :=
  Json.obj ([("type", Json.str t.type)] ++
    (match t.allowed_x_handles with
     | some hs => [("allowed_x_handles", Json.arr (hs.map Json.str))]
     | none => []) ++
    (match t.excluded_x_handles with
     | some hs => [("excluded_x_handles", Json.arr (hs.map Json.str))]
     | none => []) ++
    (match t.from_date with
     | some d => [("from_date", Json.str d)]
     | none => []) ++
    (match t.to_date with
     | some d => [("to_date", Json.str d)]
     | none => []) ++
    (match t.enable_image_understanding with
     | some b => [("enable_image_understanding", Json.bool b)]
     | none => []) ++
    (match t.enable_video_understanding with
     | some b => [("enable_video_understanding", Json.bool b)]
     | none => []))

/-- serde untagged: a Tool serializes as its payload. -/
def toolToJson : Tool → Json
  | Tool.WebSearch w => webSearchToolToJson w
  | Tool.XSearch x => xsearchToolToJson x

def grokRequestToJson (r : GrokRequest) : Json :=
  Json.obj (
    [("model", Json.str r.model),
     ("input", Json.arr (r.input.map messageToJson)),
     ("store", Json.bool r.store)] ++
    (match r.max_output_tokens with
     | some n => [("max_output_tokens", Json.num n)]
     | none => []) ++
    (match r.previous_response_id with
     | some s => [("previous_response_id", Json.str s)]
     | none => []) ++
    (if r.tools.isEmpty then []
     else [("tools", Json.arr (r.tools.map toolToJson))]))

/- Serialization of the response types (derived Serialize, no skip
attributes: unset Options serialize as null). -/

def annToJson (a : Annotation ) : Json :=
  Json.obj [("url", optStr a.url), ("title", optStr a.title)]

def resultToJson (r : WebSearchResult) : Json :=
  Json.obj [("url", optStr r.url), ("title", optStr r.title)]

def contentToJson (c : Content) : Json :=
  Json.obj [("type", Json.str c.type), ("text", optStr c.text),
    ("annotations",
      match c.annotations with
      | some l => Json.arr (l.map annToJson)
      | none => Json.null)]

def outputToJson (o : Output) : Json :=
  Json.obj [("type", Json.str o.type),
    ("content",
      match o.content with
      | some l => Json.arr (l.map contentToJson)
      | none => Json.null),
    ("results",
      match o.results with
      | some l => Json.arr (l.map resultToJson)
      | none => Json.null)]

def usageToJson (u : Usage) : Json :=
  Json.obj [("input_tokens", optNum u.input_tokens),
    ("output_tokens", optNum u.output_tokens)]

def apiErrorToJson (e : ApiError) : Json :=
  Json.obj [("message", optStr e.message), ("code", optStr e.code)]

def grokResponseToJson (r : GrokResponse) : Json :=
  Json.obj [("id", optStr r.id), ("status", optStr r.status),
    ("output",
      match r.output with
      | some l => Json.arr (l.map outputToJson)
      | none => Json.null),
    ("usage",
      match r.usage with
      | some u => usageToJson u
      | none => Json.null),
    ("error",
      match r.error with
      | some e => apiErrorToJson e
      | none => Json.null)]

/-- The x-search tool descriptor built inside create_request: filter fields
copied from the (defaulted) config, the two understanding booleans set to
Some true only when the corresponding flag is on, None otherwise. -/
def xsearchToolOf (x_search_config : Option XSearchConfig) : XSearchTool :=
  let config := x_search_config.getD defaultXSearchConfig
  { type := "x_search",
    allowed_x_handles := config.allowed_handles,
    excluded_x_handles := config.excluded_handles,
    from_date := config.from_date,
    to_date := config.to_date,
    enable_image_understanding := if config.enable_images then some true else none,
    enable_video_understanding := if config.enable_video then some true else none }

/-- The tools vector built inside create_request: the web-search descriptor
is pushed first when enabled, then the x-search descriptor when enabled. -/
def buildTools (use_web_search use_x_search : Bool)
    (x_search_config : Option XSearchConfig) : List Tool :=
  (if use_web_search
   then [Tool.WebSearch { type := "web_search", enable_image_understanding := none }]
   else []) ++
  (if use_x_search then [Tool.XSearch (xsearchToolOf x_search_config)] else [])

/-- The request-construction part of create_request in the source (the
surrounding HTTP send and response parse are transport, out of the model):
messages = optional system message then the user message, store always true,
max_output_tokens always set, model chosen by the reasoning flag. -/
def create_request (query : String) (previous_response_id : Option String)
    (system_instruction : Option String) (max_tokens : Nat)
    (use_web_search use_x_search : Bool) (x_search_config : Option XSearchConfig)
    (use_reasoning : Bool) : GrokRequest :=
  let messages : List Message :=
    (match system_instruction with
     | some instruction => [{ role := "system", content := instruction }]
     | none => []) ++ [{ role := "user", content := query }]
  { model := if use_reasoning then REASONING_MODEL else MODEL,
    input := messages,
    store := true,
    max_output_tokens := some max_tokens,
    previous_response_id := previous_response_id,
    tools := buildTools use_web_search use_x_search x_search_config }

/-- The source-registration step of format_response: push the candidate pair
(title, url) only when no already-registered source carries the same url. -/
def step (sources : List (String × String)) (p : String × String) :
    List (String × String) :=
  if sources.any (fun q => q.2 == p.2) then sources else sources ++ [p]

/-- Processing of one annotation in the message branch of format_response. -/
def annStep (sources : List (String × String)) (a : Annotation ) :
    List (String × String) :=
  match a.url with
  | some url => step sources (a.title.getD "Source", url)
  | none => sources

/-- Processing of one result entry in the web/x result branches of
format_response, with the branch-specific default title. -/
def resStep (deflt : String) (sources : List (String × String))
    (r : WebSearchResult) : List (String × String) :=
  match r.url with
  | some url => step sources (r.title.getD deflt, url)
  | none => sources

/-- Processing of one content element inside a message output item: text of
output_text/text elements is appended to the body, annotations register
sources with default title "Source". -/
def processContent (acc : String × List (String × String)) (c : Content) :
    String × List (String × String) :=
  if c.type = "output_text" ∨ c.type = "text" then
    (match c.text with
     | some t => acc.1 ++ t
     | none => acc.1,
     match c.annotations with
     | some anns => anns.foldl annStep acc.2
     | none => acc.2)
  else acc

/-- Processing of one output item in format_response's traversal. -/
def processOutput (acc : String × List (String × String)) (o : Output) :
    String × List (String × String) :=
  if o.type = "message" then
    match o.content with
    | some contents => contents.foldl processContent acc
    | none => acc
  else if o.type = "web_search_result" then
    match o.results with
    | some results => (acc.1, results.foldl (resStep "Web Result") acc.2)
    | none => acc
  else if o.type = "x_search_result" then
    match o.results with
    | some results => (acc.1, results.foldl (resStep "X Post") acc.2)
    | none => acc
  else acc

/-- The full traversal of the output-item list in format_response, producing
the running body and the registered source list. -/
def normalizePass (response : GrokResponse) : String × List (String × String) :=
  (response.output.getD []).foldl processOutput ("", [])

/-- One rendered source line of the Sources section. -/
def sourceLine (i : Nat) (p : String × String) : String :=
  toString (i + 1) ++ ". [" ++ p.1 ++ "](" ++ p.2 ++ ")\n"

/-- format_response from the source: JSON mode pretty-prints the raw
response (to_string_pretty cannot fail on these types, so unwrap_or_default
never yields the empty string); text mode short-circuits on a populated
error, else renders body, Sources section, trailer and follow-up line. -/
def format_response (response : GrokResponse) (format : OutputFormat) : String :=
  match format with
  | OutputFormat.Json => ppJson 0 (grokResponseToJson response)
  | OutputFormat.Text =>
    match response.error with
    | some error => "Error: " ++ error.message.getD "Unknown error" ++ "\n"
    | none =>
      let acc := normalizePass response
      let withSources :=
        if acc.2.isEmpty then acc.1
        else acc.2.enum.foldl (fun o p => o ++ sourceLine p.1 p.2)
          (acc.1 ++ "\n\nSources:\n")
      let withTrailer := withSources ++ "\n---\n"
      match response.id with
      | some id => withTrailer ++ "To follow up, use response_id: " ++ id ++ "\n"
      | none => withTrailer

/-- Rust enum Commands (the six subcommands, with their per-command
parameters in source order). -/
inductive Commands where
  | Search (query : String) (max_results : Nat) : Commands
  | Ask (query : String) (response_id : Option String) : Commands
  | Think (query : String) (response_id : Option String) : Commands
  | Chat (query : String) (response_id : Option String) : Commands
  | XSearch (query : String) (max_results : Nat)
      (allowed_handles excluded_handles : Option (List String))
      (from_date to_date : Option String)
      (enable_images enable_video : Bool) : Commands
  | XAsk (query : String) (response_id : Option String)
      (allowed_handles excluded_handles : Option (List String))
      (from_date to_date : Option String)
      (enable_images enable_video : Bool) : Commands

/-- Rust struct Cli (clap top level): the six shorthand mode flags, the
shared follow-up and x-search filter flags, the output selector, and the
optional subcommand. Fields in source order. -/
structure Cli where
  command : Option Commands
  search : Option String
  ask : Option String
  think : Option String
  chat : Option String
  x_search : Option String
  x_ask : Option String
  response_id : Option String
  allowed_handles : Option (List String)
  excluded_handles : Option (List String)
  from_date : Option String
  to_date : Option String
  enable_images : Bool
  enable_video : Bool
  output : OutputFormat

/-- System instruction of the --search shorthand (fixed result count 10). -/
def flagSearchInstruction : String :=
  "Search for the query and return results in this exact format:\n\n---\nTITLE: [page title]\nURL: [full url]\nSNIPPET: [2-3 sentence excerpt]\n---\n\nReturn up to 10 results. No additional commentary or analysis."

/-- System instruction of the ask mode. -/
def askInstruction : String :=
  "Be concise and factual. Cite sources when using web information."

/-- System instruction of the think mode. -/
def thinkInstruction : String :=
  "Think step by step. Be thorough and cite sources."

/-- System instruction of the --x-search shorthand (fixed result count 10). -/
def flagXSearchInstruction : String :=
  "Search X for the query and return results in this exact format:\n\n---\nAUTHOR: @[handle]\nPOST: [post content]\nURL: [full x.com url]\n---\n\nReturn up to 10 results. No additional commentary or analysis."

/-- System instruction of the x-ask mode. -/
def xAskInstruction : String :=
  "Be concise and factual. Cite X posts when referencing discussions or opinions."

/-- System instruction of the Search subcommand, interpolating the
caller-supplied max_results. -/
def searchInstruction (max_results : Nat) : String :=
  "Search for the query and return results in this exact format:\n\n---\nTITLE: [page title]\nURL: [full url]\nSNIPPET: [2-3 sentence excerpt]\n---\n\nReturn up to " ++
    toString max_results ++ " results. No additional commentary or analysis."

/-- System instruction of the XSearch subcommand, interpolating the
caller-supplied max_results. -/
def xSearchInstruction (max_results : Nat) : String :=
  "Search X for the query and return results in this exact format:\n\n---\nAUTHOR: @[handle]\nPOST: [post content]\nURL: [full x.com url]\n---\n\nReturn up to " ++
    toString max_results ++ " results. No additional commentary or analysis."

/-- XSearchConfig built from the shared shorthand filter flags. -/
def cliXConfig (cli : Cli) : XSearchConfig :=
  { allowed_handles := cli.allowed_handles,
    excluded_handles := cli.excluded_handles,
    from_date := cli.from_date,
    to_date := cli.to_date,
    enable_images := cli.enable_images,
    enable_video := cli.enable_video }

/-- The subcommand dispatch of main: the wire request each subcommand builds
via create_request (Search and XSearch pass previous_response_id = None). -/
def runCommand : Commands → GrokRequest
  | Commands.Search query max_results =>
      create_request query none (some (searchInstruction max_results)) 4096
        true false none false
  | Commands.Ask query response_id =>
      create_request query response_id (some askInstruction) 8192
        true false none false
  | Commands.Think query response_id =>
      create_request query response_id (some thinkInstruction) 16384
        true false none true
  | Commands.Chat query response_id =>
      create_request query response_id none 8192 false false none false
  | Commands.XSearch query max_results ah eh fd td ei ev =>
      create_request query none (some (xSearchInstruction max_results)) 4096
        false true
        (some { allowed_handles := ah, excluded_handles := eh,
                from_date := fd, to_date := td,
                enable_images := ei, enable_video := ev }) false
  | Commands.XAsk query response_id ah eh fd td ei ev =>
      create_request query response_id (some xAskInstruction) 8192
        false true
        (some { allowed_handles := ah, excluded_handles := eh,
                from_date := fd, to_date := td,
                enable_images := ei, enable_video := ev }) false

/-- The if-else chain of main: the shorthand flags are tried in source
order (search, ask, think, chat, x_search, x_ask), the subcommand is
consulted only when every flag is absent, and none of anything yields the
no-command exit (modelled as none). The shorthand branches all pass the
shared --response-id flag through. -/
def resolveRequest (cli : Cli) : Option GrokRequest :=
  match cli.search with
  | some query =>
      some (create_request query cli.response_id (some flagSearchInstruction)
        4096 true false none false)
  | none =>
    match cli.ask with
    | some query =>
        some (create_request query cli.response_id (some askInstruction)
          8192 true false none false)
    | none =>
      match cli.think with
      | some query =>
          some (create_request query cli.response_id (some thinkInstruction)
            16384 true false none true)
      | none =>
        match cli.chat with
        | some query =>
            some (create_request query cli.response_id none 8192
              false false none false)
        | none =>
          match cli.x_search with
          | some query =>
              some (create_request query cli.response_id
                (some flagXSearchInstruction) 4096 false true
                (some (cliXConfig cli)) false)
          | none =>
            match cli.x_ask with
            | some query =>
                some (create_request query cli.response_id
                  (some xAskInstruction) 8192 false true
                  (some (cliXConfig cli)) false)
            | none =>
              match cli.command with
              | some command => some (runCommand command)
              | none => none

/- Spec-side view of the normalization pass (§3, §4.4, §4.5 of the spec),
used to state the claims about format_response. The candidate stream lists,
in traversal order, every (title-with-default, url) pair the pass examines;
the dedup rule keeps the first occurrence per url. -/

/-- Candidate sources contributed by a list of annotations (default title
"Source"), in order. -/
def annCandidates (anns : List Annotation ) : List (String × String) :=
  anns.filterMap (fun a => a.url.map (fun u => (a.title.getD "Source", u)))

/-- Candidate sources contributed by a result list with the given default
title, in order. -/
def resCandidates (deflt : String) (rs : List WebSearchResult) :
    List (String × String) :=
  rs.filterMap (fun r => r.url.map (fun u => (r.title.getD deflt, u)))

/-- The body-text fragments contributed by one content element. -/
def cTexts (c : Content) : List String :=
  if c.type = "output_text" ∨ c.type = "text" then c.text.toList else []

/-- The candidate sources contributed by one content element. -/
def cCands (c : Content) : List (String × String) :=
  if c.type = "output_text" ∨ c.type = "text" then
    annCandidates (c.annotations.getD [])
  else []

/-- The body-text fragments contributed by one output item. -/
def msgTexts (o : Output) : List String :=
  if o.type = "message" then (o.content.getD []).flatMap cTexts else []

/-- The candidate sources contributed by one output item, in order. -/
def outputCandidates (o : Output) : List (String × String) :=
  if o.type = "message" then (o.content.getD []).flatMap cCands
  else if o.type = "web_search_result" then
    resCandidates "Web Result" (o.results.getD [])
  else if o.type = "x_search_result" then
    resCandidates "X Post" (o.results.getD [])
  else []

/-- The full candidate stream of a response, in traversal order. -/
def responseCandidates (r : GrokResponse) : List (String × String) :=
  (r.output.getD []).flatMap outputCandidates

/-- Spec-side body text: literal concatenation, in document order, of the
text of every output_text/text content element of every message item. -/
def specBody (r : GrokResponse) : String :=
  concatStrings ((r.output.getD []).flatMap msgTexts)

/-- Spec-side source list: first-occurrence-per-url dedup of the candidate
stream, in registration order. -/
def specSources (r : GrokResponse) : List (String × String) :=
  (responseCandidates r).foldl step []

/-- The deduplicated source list format_response's text mode actually
renders (second component of the normalization pass). -/
def textSources (r : GrokResponse) : List (String × String) :=
  (normalizePass r).2

/-- Spec-side Sources section: empty when no source, else the header and
one 1-indexed line per source. -/
def specSourcesSection : List (String × String) → String
  | [] => ""
  | p :: ps => "\n\nSources:\n" ++
      concatStrings ((p :: ps).enum.map (fun q => sourceLine q.1 q.2))

/-- Spec-side follow-up line: present exactly when the response id is. -/
def followUpLine : Option String → String
  | some id => "To follow up, use response_id: " ++ id ++ "\n"
  | none => ""

/- Concrete fixtures used by the per-claim scenario conjuncts, witnesses
and counterexamples. -/

/-- A response holding three occurrences of the url "dup" (two web results
with differing titles and an x result), an annotation repeating it, and a
second distinct url. -/
def c1resp : GrokResponse :=
  { id := some "resp_1", status := some "completed",
    output := some [
      { type := "web_search_result", content := none,
        results := some [
          { url := some "dup", title := some "First Title" },
          { url := some "dup", title := some "Second Title" },
          { url := some "other", title := none }] },
      { type := "x_search_result", content := none,
        results := some [{ url := some "dup", title := some "Third Title" }] },
      { type := "message",
        content := some [
          { type := "output_text", text := some "body",
            annotations := some [{ url := some "dup", title := none }] }],
        results := none }],
    usage := none, error := none }

/-- A response with a populated error carrying no message, alongside an
output list and an id (both must be ignored by text mode). -/
def c2resp : GrokResponse :=
  { id := some "resp_2", status := some "failed",
    output := some [
      { type := "message",
        content := some [
          { type := "output_text", text := some "ignored", annotations := none }],
        results := none }],
    usage := none,
    error := some { message := none, code := some "500" } }

/-- The scenario response of the spec: one x-search result (u1, t1) followed
by one message with body "hi", no id. -/
def c6resp : GrokResponse :=
  { id := none, status := none,
    output := some [
      { type := "x_search_result", content := none,
        results := some [{ url := some "u1", title := some "t1" }] },
      { type := "message",
        content := some [
          { type := "output_text", text := some "hi", annotations := none }],
        results := none }],
    usage := none, error := none }

/-- A response with both a populated error and output items carrying a
duplicated url: JSON mode must serialize all of it untouched. -/
def c8resp : GrokResponse :=
  { id := some "resp_8", status := some "failed",
    output := some [
      { type := "web_search_result", content := none,
        results := some [
          { url := some "u", title := some "A" },
          { url := some "u", title := some "B" }] }],
    usage := none,
    error := some { message := some "boom", code := some "429" } }

/-- A Cli invocation supplying two primary modes at once (--search and
--ask). -/
def cliBoth : Cli :=
  { command := none, search := some "alpha", ask := some "beta",
    think := none, chat := none, x_search := none, x_ask := none,
    response_id := none, allowed_handles := none, excluded_handles := none,
    from_date := none, to_date := none, enable_images := false,
    enable_video := false, output := OutputFormat.Text }

/-- A wire request with every optional field unset, as built by the test
fixture of the source (chat without tools). -/
def c5req : GrokRequest :=
  { model := MODEL, input := [{ role := "user", content := "chat" }],
    store := true, max_output_tokens := none, previous_response_id := none,
    tools := [] }

/-- An x-search configuration with a handle list, a start date and the
image flag set, everything else unset. -/
def c5cfg : XSearchConfig :=
  { allowed_handles := some ["alice"], excluded_handles := none,
    from_date := some "2024-01-01", to_date := none,
    enable_images := true, enable_video := false }

/-- The pretty-printed JSON-mode output for c8resp, written out in full:
error object, null fields and both duplicate urls all present. -/
def c8expected : String :=
  "\x7b\n  \"id\": \"resp_8\",\n  \"status\": \"failed\",\n  \"output\": [\n    \x7b\n      \"type\": \"web_search_result\",\n      \"content\": null,\n      \"results\": [\n        \x7b\n          \"url\": \"u\",\n          \"title\": \"A\"\n        \x7d,\n        \x7b\n          \"url\": \"u\",\n          \"title\": \"B\"\n        \x7d\n      ]\n    \x7d\n  ],\n  \"usage\": null,\n  \"error\": \x7b\n    \"message\": \"boom\",\n    \"code\": \"429\"\n  \x7d\n\x7d"

/- Lemmas about the source-registration fold. -/

theorem any_url_iff (l : List (String × String)) (u : String) :
    l.any (fun q => q.2 == u) = true ↔ u ∈ l.map Prod.snd := by
  simp [List.any_eq_true, List.mem_map]

theorem mem_map_snd (l : List (String × String)) (u : String) :
    u ∈ l.map Prod.snd ↔ ∃ t, (t, u) ∈ l := by
  constructor
  · intro h
    rcases List.mem_map.mp h with ⟨⟨t, u'⟩, hm, he⟩
    cases he
    exact ⟨t, hm⟩
  · rintro ⟨t, h⟩
    exact List.mem_map.mpr ⟨(t, u), h, rfl⟩

theorem step_map_snd_mem (acc : List (String × String)) (p : String × String)
    (u : String) :
    u ∈ (step acc p).map Prod.snd ↔ u ∈ acc.map Prod.snd ∨ u = p.2 := by
  unfold step
  by_cases h : acc.any (fun q => q.2 == p.2) = true
  · rw [if_pos h]
    have hp : p.2 ∈ acc.map Prod.snd := (any_url_iff acc p.2).mp h
    constructor
    · exact Or.inl
    · rintro (h1 | rfl)
      · exact h1
      · exact hp
  · rw [if_neg h]
    simp

theorem foldl_step_mem (cands : List (String × String)) :
    ∀ (acc : List (String × String)) (u : String),
      u ∈ (cands.foldl step acc).map Prod.snd ↔
        u ∈ acc.map Prod.snd ∨ u ∈ cands.map Prod.snd := by
  induction cands with
  | nil => simp
  | cons p ps ih =>
    intro acc u
    rw [List.foldl_cons, ih, step_map_snd_mem]
    simp [or_assoc]

theorem foldl_step_nodup (cands : List (String × String)) :
    ∀ acc : List (String × String),
      (acc.map Prod.snd).Nodup → ((cands.foldl step acc).map Prod.snd).Nodup := by
  induction cands with
  | nil => intro acc h; exact h
  | cons p ps ih =>
    intro acc h
    rw [List.foldl_cons]
    apply ih
    unfold step
    by_cases hc : acc.any (fun q => q.2 == p.2) = true
    · rw [if_pos hc]; exact h
    · rw [if_neg hc]
      have hp : p.2 ∉ acc.map Prod.snd := fun hm => hc ((any_url_iff acc p.2).mpr hm)
      rw [List.map_append]
      exact List.Nodup.append h (List.nodup_singleton p.2)
        (List.disjoint_singleton.mpr hp)

theorem foldl_step_first (cands : List (String × String)) :
    ∀ (acc : List (String × String)) (p : String × String),
      p ∈ cands.foldl step acc →
      p ∈ acc ∨ (p.2 ∉ acc.map Prod.snd ∧
        cands.find? (fun q => q.2 == p.2) = some p) := by
  induction cands with
  | nil => intro acc p h; exact Or.inl h
  | cons c cs ih =>
    intro acc p h
    rw [List.foldl_cons] at h
    rcases ih (step acc c) p h with hmem | ⟨hnot, hfind⟩
    · unfold step at hmem
      by_cases hc : acc.any (fun q => q.2 == c.2) = true
      · rw [if_pos hc] at hmem
        exact Or.inl hmem
      · rw [if_neg hc] at hmem
        rcases List.mem_append.mp hmem with h1 | h2
        · exact Or.inl h1
        · have hpc : p = c := by simpa using h2
          subst hpc
          refine Or.inr ⟨fun hm => hc ((any_url_iff acc p.2).mpr hm), ?_⟩
          rw [List.find?_cons_of_pos]
          simp
    · have hsub : p.2 ∉ acc.map Prod.snd := by
        intro hm
        exact hnot ((step_map_snd_mem acc c p.2).mpr (Or.inl hm))
      have hcmem : c.2 ∈ (step acc c).map Prod.snd :=
        (step_map_snd_mem acc c c.2).mpr (Or.inr rfl)
      have hne : p.2 ≠ c.2 := fun he => hnot (he ▸ hcmem)
      refine Or.inr ⟨hsub, ?_⟩
      rw [List.find?_cons_of_neg, hfind]
      simp [hne.symm]

/- Lemmas relating the imperative traversal of format_response to the
spec-side candidate stream. -/

theorem concatStrings_append (a b : List String) :
    concatStrings (a ++ b) = concatStrings a ++ concatStrings b := by
  induction a with
  | nil => simp [concatStrings, String.empty_append]
  | cons x xs ih => simp [concatStrings, ih, String.append_assoc]

theorem ann_fold (anns : List Annotation ) :
    ∀ s : List (String × String),
      anns.foldl annStep s = (annCandidates anns).foldl step s := by
  induction anns with
  | nil => intro s; rfl
  | cons a as ih =>
    intro s
    rw [List.foldl_cons]
    cases h : a.url with
    | none =>
      simp [annStep, annCandidates, List.filterMap_cons, h, ih,
        annCandidates]
    | some u =>
      simp only [annStep, h]
      rw [ih]
      simp [annCandidates, List.filterMap_cons, h]

theorem res_fold (deflt : String) (rs : List WebSearchResult) :
    ∀ s : List (String × String),
      rs.foldl (resStep deflt) s = (resCandidates deflt rs).foldl step s := by
  induction rs with
  | nil => intro s; rfl
  | cons r rest ih =>
    intro s
    rw [List.foldl_cons]
    cases h : r.url with
    | none =>
      simp [resStep, resCandidates, List.filterMap_cons, h, ih,
        resCandidates]
    | some u =>
      simp only [resStep, h]
      rw [ih]
      simp [resCandidates, List.filterMap_cons, h]

theorem processContent_eq (c : Content) (b : String)
    (s : List (String × String)) :
    processContent (b, s) c =
      (b ++ concatStrings (cTexts c), (cCands c).foldl step s) := by
  by_cases h : c.type = "output_text" ∨ c.type = "text"
  · simp only [processContent, cTexts, cCands, if_pos h]
    cases ht : c.text <;> cases ha : c.annotations <;>
      simp [ht, ha, concatStrings, String.append_empty, ann_fold,
        annCandidates]
  · simp [processContent, cTexts, cCands, if_neg h, String.append_empty,
      concatStrings]

theorem processContent_fold (cs : List Content) :
    ∀ (b : String) (s : List (String × String)),
      cs.foldl processContent (b, s) =
        (b ++ concatStrings (cs.flatMap cTexts),
         (cs.flatMap cCands).foldl step s) := by
  induction cs with
  | nil => intro b s; simp [concatStrings, String.append_empty]
  | cons c cs ih =>
    intro b s
    rw [List.foldl_cons, processContent_eq, ih]
    simp [List.flatMap_cons, concatStrings_append, String.append_assoc,
      List.foldl_append]

theorem processOutput_eq (o : Output) (b : String)
    (s : List (String × String)) :
    processOutput (b, s) o =
      (b ++ concatStrings (msgTexts o), (outputCandidates o).foldl step s) := by
  by_cases h1 : o.type = "message"
  · simp only [processOutput, msgTexts, outputCandidates, if_pos h1]
    cases hc : o.content with
    | none => simp [concatStrings, String.append_empty]
    | some cs => simp [processContent_fold]
  · by_cases h2 : o.type = "web_search_result"
    · simp only [processOutput, msgTexts, outputCandidates, if_neg h1,
        if_pos h2]
      cases hr : o.results with
      | none => simp [concatStrings, String.append_empty, resCandidates]
      | some rs => simp [res_fold, concatStrings, String.append_empty]
    · by_cases h3 : o.type = "x_search_result"
      · simp only [processOutput, msgTexts, outputCandidates, if_neg h1,
          if_neg h2, if_pos h3]
        cases hr : o.results with
        | none => simp [concatStrings, String.append_empty, resCandidates]
        | some rs => simp [res_fold, concatStrings, String.append_empty]
      · simp [processOutput, msgTexts, outputCandidates, if_neg h1,
          if_neg h2, if_neg h3, concatStrings, String.append_empty]

theorem processOutput_fold (outs : List Output) :
    ∀ (b : String) (s : List (String × String)),
      outs.foldl processOutput (b, s) =
        (b ++ concatStrings (outs.flatMap msgTexts),
         (outs.flatMap outputCandidates).foldl step s) := by
  induction outs with
  | nil => intro b s; simp [concatStrings, String.append_empty]
  | cons o os ih =>
    intro b s
    rw [List.foldl_cons, processOutput_eq, ih]
    simp [List.flatMap_cons, concatStrings_append, String.append_assoc,
      List.foldl_append]

theorem normalizePass_eq (r : GrokResponse) :
    normalizePass r = (specBody r, specSources r) := by
  unfold normalizePass specBody specSources responseCandidates
  rw [processOutput_fold]
  simp [String.empty_append]

theorem src_fold (l : List (Nat × (String × String))) :
    ∀ a : String,
      l.foldl (fun o p => o ++ sourceLine p.1 p.2) a =
        a ++ concatStrings (l.map (fun p => sourceLine p.1 p.2)) := by
  induction l with
  | nil => intro a; simp [concatStrings, String.append_empty]
  | cons x xs ih =>
    intro a
    rw [List.foldl_cons, ih]
    simp [concatStrings, String.append_assoc]

/-- C1: for every response with no error, the source list produced by the
normalization pass holds at most one entry per distinct url (exact string
comparison): its urls are pairwise distinct, every registered entry is the
first occurrence of its url in the candidate stream (annotation and result
entries with their kind-specific default titles, in traversal order), and a
url appears among the registered sources exactly when it appears somewhere
in the candidate stream. -/
theorem c1_source_dedup (r : GrokResponse) (_h : r.error = none) :
    ((textSources r).map Prod.snd).Nodup ∧
    (∀ p ∈ textSources r,
      (responseCandidates r).find? (fun q => q.2 == p.2) = some p) ∧
    (∀ u : String,
      (∃ t, (t, u) ∈ responseCandidates r) ↔ ∃ t, (t, u) ∈ textSources r) := by
  have hs : textSources r = (responseCandidates r).foldl step [] := by
    unfold textSources
    rw [normalizePass_eq]
    rfl
  refine ⟨?_, ?_, ?_⟩
  · rw [hs]
    exact foldl_step_nodup _ [] (by simp)
  · intro p hp
    rw [hs] at hp
    rcases foldl_step_first _ [] p hp with hmem | ⟨_, hfind⟩
    · simp at hmem
    · exact hfind
  · intro u
    rw [← mem_map_snd, ← mem_map_snd, hs, foldl_step_mem]
    simp

/-- Witness for C1: c1resp has no error and its five candidates holding
three distinct urls dedup to a list with pairwise distinct urls. -/
theorem c1_source_dedup_witness :
    c1resp.error = none ∧ ((textSources c1resp).map Prod.snd).Nodup :=
  ⟨rfl, (c1_source_dedup c1resp rfl).1⟩

/-- C2: for every response whose error field is populated, text mode yields
exactly the error line (message, or "Unknown error" when absent) followed by
a newline — whatever output items or id the payload also carries. -/
theorem c2_error_short_circuit (r : GrokResponse) (e : ApiError)
    (h : r.error = some e) :
    format_response r OutputFormat.Text =
      "Error: " ++ e.message.getD "Unknown error" ++ "\n" := by
  simp [format_response, h]

/-- Witness for C2: c2resp carries an error with no message together with an
output list and an id, and renders as exactly the Unknown-error line. -/
theorem c2_error_short_circuit_witness :
    c2resp.error = some { message := none, code := some "500" } ∧
    format_response c2resp OutputFormat.Text = "Error: Unknown error\n" :=
  ⟨rfl, c2_error_short_circuit c2resp { message := none, code := some "500" } rfl⟩

/-- C3: the built request's model is the reasoning model exactly for the
Think mode: create_request selects by the reasoning flag alone (first two
conjuncts, over every other parameter), every Think path (subcommand and
shorthand) passes true and every other mode passes false, and the two
identifiers differ. -/
theorem c3_model_selection :
    (∀ (q : String) (pid si : Option String) (mt : Nat) (uw ux : Bool)
        (cfg : Option XSearchConfig),
      (create_request q pid si mt uw ux cfg true).model = REASONING_MODEL) ∧
    (∀ (q : String) (pid si : Option String) (mt : Nat) (uw ux : Bool)
        (cfg : Option XSearchConfig),
      (create_request q pid si mt uw ux cfg false).model = MODEL) ∧
    (∀ q rid, (runCommand (Commands.Think q rid)).model = REASONING_MODEL) ∧
    (∀ q n, (runCommand (Commands.Search q n)).model = MODEL) ∧
    (∀ q rid, (runCommand (Commands.Ask q rid)).model = MODEL) ∧
    (∀ q rid, (runCommand (Commands.Chat q rid)).model = MODEL) ∧
    (∀ q n ah eh fd td ei ev,
      (runCommand (Commands.XSearch q n ah eh fd td ei ev)).model = MODEL) ∧
    (∀ q rid ah eh fd td ei ev,
      (runCommand (Commands.XAsk q rid ah eh fd td ei ev)).model = MODEL) ∧
    (∀ cmd q a t c xs xa rid ah eh fd td ei ev fmt,
      (resolveRequest ⟨cmd, some q, a, t, c, xs, xa, rid, ah, eh, fd, td,
        ei, ev, fmt⟩).map GrokRequest.model = some MODEL) ∧
    (∀ cmd q t c xs xa rid ah eh fd td ei ev fmt,
      (resolveRequest ⟨cmd, none, some q, t, c, xs, xa, rid, ah, eh, fd, td,
        ei, ev, fmt⟩).map GrokRequest.model = some MODEL) ∧
    (∀ cmd q c xs xa rid ah eh fd td ei ev fmt,
      (resolveRequest ⟨cmd, none, none, some q, c, xs, xa, rid, ah, eh, fd,
        td, ei, ev, fmt⟩).map GrokRequest.model = some REASONING_MODEL) ∧
    (∀ cmd q xs xa rid ah eh fd td ei ev fmt,
      (resolveRequest ⟨cmd, none, none, none, some q, xs, xa, rid, ah, eh,
        fd, td, ei, ev, fmt⟩).map GrokRequest.model = some MODEL) ∧
    (∀ cmd q xa rid ah eh fd td ei ev fmt,
      (resolveRequest ⟨cmd, none, none, none, none, some q, xa, rid, ah, eh,
        fd, td, ei, ev, fmt⟩).map GrokRequest.model = some MODEL) ∧
    (∀ cmd q rid ah eh fd td ei ev fmt,
      (resolveRequest ⟨cmd, none, none, none, none, none, some q, rid, ah,
        eh, fd, td, ei, ev, fmt⟩).map GrokRequest.model = some MODEL) ∧
    MODEL ≠ REASONING_MODEL := by
  refine ⟨?_, ?_, ?_, ?_, ?_, ?_, ?_, ?_, ?_, ?_, ?_, ?_, ?_, ?_, ?_⟩ <;>
    first
      | (intros; rfl)
      | decide

/-- C4: the built request's tool list is empty for Chat, exactly the
web-search descriptor for Search/Ask/Think, exactly the x-search descriptor
for XSearch/XAsk (on both the subcommand and the shorthand paths), and the
tool composer puts the web-search descriptor before the x-search descriptor
when both capability flags are set. -/
theorem c4_tool_lists :
    (∀ q rid, (runCommand (Commands.Chat q rid)).tools = []) ∧
    (∀ q n, (runCommand (Commands.Search q n)).tools =
      [Tool.WebSearch { type := "web_search", enable_image_understanding := none }]) ∧
    (∀ q rid, (runCommand (Commands.Ask q rid)).tools =
      [Tool.WebSearch { type := "web_search", enable_image_understanding := none }]) ∧
    (∀ q rid, (runCommand (Commands.Think q rid)).tools =
      [Tool.WebSearch { type := "web_search", enable_image_understanding := none }]) ∧
    (∀ q n ah eh fd td ei ev,
      (runCommand (Commands.XSearch q n ah eh fd td ei ev)).tools =
        [Tool.XSearch (xsearchToolOf (some ⟨ah, eh, fd, td, ei, ev⟩))]) ∧
    (∀ q rid ah eh fd td ei ev,
      (runCommand (Commands.XAsk q rid ah eh fd td ei ev)).tools =
        [Tool.XSearch (xsearchToolOf (some ⟨ah, eh, fd, td, ei, ev⟩))]) ∧
    (∀ cmd q xs xa rid ah eh fd td ei ev fmt,
      (resolveRequest ⟨cmd, none, none, none, some q, xs, xa, rid, ah, eh,
        fd, td, ei, ev, fmt⟩).map GrokRequest.tools = some []) ∧
    (∀ cmd q a t c xs xa rid ah eh fd td ei ev fmt,
      (resolveRequest ⟨cmd, some q, a, t, c, xs, xa, rid, ah, eh, fd, td,
        ei, ev, fmt⟩).map GrokRequest.tools = some
        [Tool.WebSearch { type := "web_search", enable_image_understanding := none }]) ∧
    (∀ cmd q t c xs xa rid ah eh fd td ei ev fmt,
      (resolveRequest ⟨cmd, none, some q, t, c, xs, xa, rid, ah, eh, fd, td,
        ei, ev, fmt⟩).map GrokRequest.tools = some
        [Tool.WebSearch { type := "web_search", enable_image_understanding := none }]) ∧
    (∀ cmd q c xs xa rid ah eh fd td ei ev fmt,
      (resolveRequest ⟨cmd, none, none, some q, c, xs, xa, rid, ah, eh, fd,
        td, ei, ev, fmt⟩).map GrokRequest.tools = some
        [Tool.WebSearch { type := "web_search", enable_image_understanding := none }]) ∧
    (∀ cmd q xa rid ah eh fd td ei ev fmt,
      (resolveRequest ⟨cmd, none, none, none, none, some q, xa, rid, ah, eh,
        fd, td, ei, ev, fmt⟩).map GrokRequest.tools = some
        [Tool.XSearch (xsearchToolOf (some ⟨ah, eh, fd, td, ei, ev⟩))]) ∧
    (∀ cmd q rid ah eh fd td ei ev fmt,
      (resolveRequest ⟨cmd, none, none, none, none, none, some q, rid, ah,
        eh, fd, td, ei, ev, fmt⟩).map GrokRequest.tools = some
        [Tool.XSearch (xsearchToolOf (some ⟨ah, eh, fd, td, ei, ev⟩))]) ∧
    (∀ cfg : Option XSearchConfig, buildTools true true cfg =
      [Tool.WebSearch { type := "web_search", enable_image_understanding := none },
       Tool.XSearch (xsearchToolOf cfg)]) ∧
    buildTools false false none = [] := by
  refine ⟨?_, ?_, ?_, ?_, ?_, ?_, ?_, ?_, ?_, ?_, ?_, ?_, ?_, ?_⟩ <;>
    (intros; rfl)

/-- C10: the Search and XSearch subcommand branches always call the request
builder with previous_response_id = None, while Ask/Think/Chat/XAsk pass the
caller-supplied id through, and all six shorthand flag branches pass the
shared --response-id flag through. -/
theorem c10_threading :
    (∀ q n, (runCommand (Commands.Search q n)).previous_response_id = none) ∧
    (∀ q n ah eh fd td ei ev,
      (runCommand (Commands.XSearch q n ah eh fd td ei ev)).previous_response_id =
        none) ∧
    (∀ q rid, (runCommand (Commands.Ask q rid)).previous_response_id = rid) ∧
    (∀ q rid, (runCommand (Commands.Think q rid)).previous_response_id = rid) ∧
    (∀ q rid, (runCommand (Commands.Chat q rid)).previous_response_id = rid) ∧
    (∀ q rid ah eh fd td ei ev,
      (runCommand (Commands.XAsk q rid ah eh fd td ei ev)).previous_response_id =
        rid) ∧
    (∀ cmd q a t c xs xa rid ah eh fd td ei ev fmt,
      (resolveRequest ⟨cmd, some q, a, t, c, xs, xa, rid, ah, eh, fd, td,
        ei, ev, fmt⟩).map GrokRequest.previous_response_id = some rid) ∧
    (∀ cmd q t c xs xa rid ah eh fd td ei ev fmt,
      (resolveRequest ⟨cmd, none, some q, t, c, xs, xa, rid, ah, eh, fd, td,
        ei, ev, fmt⟩).map GrokRequest.previous_response_id = some rid) ∧
    (∀ cmd q c xs xa rid ah eh fd td ei ev fmt,
      (resolveRequest ⟨cmd, none, none, some q, c, xs, xa, rid, ah, eh, fd,
        td, ei, ev, fmt⟩).map GrokRequest.previous_response_id = some rid) ∧
    (∀ cmd q xs xa rid ah eh fd td ei ev fmt,
      (resolveRequest ⟨cmd, none, none, none, some q, xs, xa, rid, ah, eh,
        fd, td, ei, ev, fmt⟩).map GrokRequest.previous_response_id = some rid) ∧
    (∀ cmd q xa rid ah eh fd td ei ev fmt,
      (resolveRequest ⟨cmd, none, none, none, none, some q, xa, rid, ah, eh,
        fd, td, ei, ev, fmt⟩).map GrokRequest.previous_response_id = some rid) ∧
    (∀ cmd q rid ah eh fd td ei ev fmt,
      (resolveRequest ⟨cmd, none, none, none, none, none, some q, rid, ah,
        eh, fd, td, ei, ev, fmt⟩).map GrokRequest.previous_response_id =
        some rid) := by
  refine ⟨?_, ?_, ?_, ?_, ?_, ?_, ?_, ?_, ?_, ?_, ?_, ?_⟩ <;> (intros; rfl)

/-- C5: serialization omits unset optional fields entirely. A request with
no max-output-tokens and no previous-response-id carries neither key, the
tools key is absent (not an empty array) when the tool list is empty, and
the x-search descriptor carries each optional filter key exactly when set,
with the two understanding booleans present (with value true) exactly when
the corresponding flag is on — never as an explicit false. -/
theorem c5_field_omission (req : GrokRequest)
    (h1 : req.max_output_tokens = none) (h2 : req.previous_response_id = none)
    (h3 : req.tools = []) (cfg : XSearchConfig) :
    jsonHasKey (grokRequestToJson req) "max_output_tokens" = false ∧
    jsonHasKey (grokRequestToJson req) "previous_response_id" = false ∧
    jsonHasKey (grokRequestToJson req) "tools" = false ∧
    jsonHasKey (xsearchToolToJson (xsearchToolOf (some cfg)))
      "allowed_x_handles" = cfg.allowed_handles.isSome ∧
    jsonHasKey (xsearchToolToJson (xsearchToolOf (some cfg)))
      "excluded_x_handles" = cfg.excluded_handles.isSome ∧
    jsonHasKey (xsearchToolToJson (xsearchToolOf (some cfg)))
      "from_date" = cfg.from_date.isSome ∧
    jsonHasKey (xsearchToolToJson (xsearchToolOf (some cfg)))
      "to_date" = cfg.to_date.isSome ∧
    jsonHasKey (xsearchToolToJson (xsearchToolOf (some cfg)))
      "enable_image_understanding" = cfg.enable_images ∧
    (cfg.enable_images = true →
      jsonLookup (xsearchToolToJson (xsearchToolOf (some cfg)))
        "enable_image_understanding" = some (Json.bool true)) ∧
    jsonHasKey (xsearchToolToJson (xsearchToolOf (some cfg)))
      "enable_video_understanding" = cfg.enable_video ∧
    (cfg.enable_video = true →
      jsonLookup (xsearchToolToJson (xsearchToolOf (some cfg)))
        "enable_video_understanding" = some (Json.bool true)) := by
  obtain ⟨ah, eh, fd, td, ei, ev⟩ := cfg
  refine ⟨?_, ?_, ?_, ?_, ?_, ?_, ?_, ?_, ?_, ?_, ?_⟩ <;>
    try simp [grokRequestToJson, jsonHasKey, h1, h2, h3]
  all_goals
    cases ah <;> cases eh <;> cases fd <;> cases td <;> cases ei <;> cases ev <;>
      first
        | rfl
        | (intro hx; rfl)
        | (intro hx; exact absurd hx (by decide))

/-- Witness for C5: the optional-free fixture request carries none of the
three keys, and the sample configuration with to_date unset omits the
to_date key. -/
theorem c5_field_omission_witness :
    c5req.max_output_tokens = none ∧ c5req.previous_response_id = none ∧
    c5req.tools = [] ∧
    jsonHasKey (grokRequestToJson c5req) "max_output_tokens" = false ∧
    jsonHasKey (xsearchToolToJson (xsearchToolOf (some c5cfg))) "to_date" =
      c5cfg.to_date.isSome :=
  ⟨rfl, rfl, rfl, (c5_field_omission c5req rfl rfl rfl c5cfg).1,
    (c5_field_omission c5req rfl rfl rfl c5cfg).2.2.2.2.2.2.1⟩

/-- An if whose condition is the emptiness test of the empty list reduces
to the then-branch. -/
theorem ite_isEmpty_nil {α : Type} (a b : α) :
    (if ([] : List (String × String)).isEmpty = true then a else b) = a := rfl

/-- An if whose condition is the emptiness test of a cons reduces to the
else-branch. -/
theorem ite_isEmpty_cons (p : String × String) (ps : List (String × String))
    {α : Type} (a b : α) :
    (if (p :: ps).isEmpty = true then a else b) = b := rfl

/-- C6: for every error-free response, text mode renders exactly the
concatenated message body, then (only when the deduplicated source list is
non-empty) the Sources header with one 1-indexed line per source, then the
trailer, then the follow-up line only when the id is present; and on the
spec's scenario response the output is the exact expected string. -/
theorem c6_text_rendering :
    (∀ r : GrokResponse, r.error = none →
      format_response r OutputFormat.Text =
        specBody r ++ specSourcesSection (specSources r) ++ "\n---\n" ++
          followUpLine r.id) ∧
    format_response c6resp OutputFormat.Text =
      "hi\n\nSources:\n1. [t1](u1)\n\n---\n" := by
  constructor
  · intro r h
    simp only [format_response, h]
    rw [normalizePass_eq]
    dsimp only
    cases hs : specSources r with
    | nil =>
      rw [ite_isEmpty_nil]
      cases r.id <;>
        simp only [specSourcesSection, followUpLine, String.append_assoc,
          String.append_empty]
    | cons p ps =>
      rw [ite_isEmpty_cons]
      rw [src_fold]
      cases r.id <;>
        simp only [specSourcesSection, followUpLine, String.append_assoc,
          String.append_empty]
  · rfl

/-- Witness for C6: the scenario response has no error and satisfies the
rendering formula. -/
theorem c6_text_rendering_witness :
    c6resp.error = none ∧
    format_response c6resp OutputFormat.Text =
      specBody c6resp ++ specSourcesSection (specSources c6resp) ++ "\n---\n" ++
        followUpLine c6resp.id :=
  ⟨rfl, c6_text_rendering.1 c6resp rfl⟩

set_option maxRecDepth 8192 in
/-- C8: JSON mode is the pretty-printed serialization of the raw wire
response for every response; on a response carrying both a populated error
and duplicated source urls it emits the full payload (error object, null
fields and both duplicates included) and not the text-mode error line. -/
theorem c8_json_raw_passthrough :
    (∀ r : GrokResponse,
      format_response r OutputFormat.Json = ppJson 0 (grokResponseToJson r)) ∧
    format_response c8resp OutputFormat.Json = c8expected ∧
    format_response c8resp OutputFormat.Json ≠ "Error: boom\n" := by
  refine ⟨fun r => rfl, rfl, ?_⟩
  decide

/-- C9: the Search subcommand with result limit 5 builds a request whose
message list starts with a system instruction containing the substring
"Return up to 5 results" and whose tool list is exactly the web-search
descriptor; the instruction template interpolates any limit, and the
shorthand default instruction is the template at 10. -/
theorem c9_search_scenario :
    (∀ q : String,
      (runCommand (Commands.Search q 5)).input =
        [{ role := "system", content := searchInstruction 5 },
         { role := "user", content := q }] ∧
      (runCommand (Commands.Search q 5)).tools =
        [Tool.WebSearch { type := "web_search", enable_image_understanding := none }] ∧
      "Return up to 5 results".data <:+: (searchInstruction 5).data) ∧
    (∀ (n : Nat) (q : String),
      (runCommand (Commands.Search q n)).input.head? =
        some { role := "system", content := searchInstruction n }) ∧
    flagSearchInstruction = searchInstruction 10 := by
  refine ⟨fun q => ⟨rfl, rfl, ?_⟩, fun n q => rfl, rfl⟩
  exact ⟨"Search for the query and return results in this exact format:\n\n---\nTITLE: [page title]\nURL: [full url]\nSNIPPET: [2-3 sentence excerpt]\n---\n\n".data,
    ". No additional commentary or analysis.".data, rfl⟩

/-- Counterexample to C7 as stated: cliBoth supplies two primary modes at
once (--search "alpha" and --ask "beta"), yet mode resolution does not
fail — it silently resolves to the search request for "alpha". -/
theorem c7_claim_counterexample :
    cliBoth.search = some "alpha" ∧ cliBoth.ask = some "beta" ∧
    resolveRequest cliBoth =
      some (create_request "alpha" none (some flagSearchInstruction) 4096
        true false none false) :=
  ⟨rfl, rfl, rfl⟩

/-- C7 (amended): when more than one primary shorthand mode flag is
supplied, resolution silently picks the first present flag in the fixed
chain order search, ask, think, chat, x-search, x-ask (a subcommand is
consulted only when every flag is absent); no configuration error is
raised. -/
theorem c7_first_match_precedence (cli : Cli) :
    (∀ q, cli.search = some q →
      resolveRequest cli = some (create_request q cli.response_id
        (some flagSearchInstruction) 4096 true false none false)) ∧
    (∀ q, cli.search = none → cli.ask = some q →
      resolveRequest cli = some (create_request q cli.response_id
        (some askInstruction) 8192 true false none false)) ∧
    (∀ q, cli.search = none → cli.ask = none → cli.think = some q →
      resolveRequest cli = some (create_request q cli.response_id
        (some thinkInstruction) 16384 true false none true)) ∧
    (∀ q, cli.search = none → cli.ask = none → cli.think = none →
      cli.chat = some q →
      resolveRequest cli = some (create_request q cli.response_id none 8192
        false false none false)) ∧
    (∀ q, cli.search = none → cli.ask = none → cli.think = none →
      cli.chat = none → cli.x_search = some q →
      resolveRequest cli = some (create_request q cli.response_id
        (some flagXSearchInstruction) 4096 false true
        (some (cliXConfig cli)) false)) ∧
    (∀ q, cli.search = none → cli.ask = none → cli.think = none →
      cli.chat = none → cli.x_search = none → cli.x_ask = some q →
      resolveRequest cli = some (create_request q cli.response_id
        (some xAskInstruction) 8192 false true
        (some (cliXConfig cli)) false)) := by
  refine ⟨?_, ?_, ?_, ?_, ?_, ?_⟩ <;> (intros; simp [resolveRequest, *])

/-- Witness for the amended C7: on cliBoth (both --search and --ask
present) the search branch wins. -/
theorem c7_first_match_precedence_witness :
    cliBoth.search = some "alpha" ∧
    resolveRequest cliBoth =
      some (create_request "alpha" cliBoth.response_id
        (some flagSearchInstruction) 4096 true false none false) :=
  ⟨rfl, (c7_first_match_precedence cliBoth).1 "alpha" rfl⟩

end Grok
